import Mathlib

/-!
Verification of the faucet transaction layer of the farcastdrop repository
(`src/lib/faucet.ts`).  The TypeScript source is shallowly embedded: pure
helpers become Lean functions, async chain interaction is represented by
explicit outcome parameters (estimation results, probe oracles, receipt
polling outcomes), and thrown JavaScript errors become `Except String`
values.  Transaction submission is recorded as an explicit list of
`TxRequest` values so that theorems can count and inspect the transactions
an operation submits.
-/

/-- Ethereum addresses are modelled as their hex strings. -/
abbrev Address := String

/-- Transaction hashes are modelled as strings. -/
abbrev Hash := String

/-- `ethers.ZeroAddress`. -/
def ZeroAddress : Address := "0x0000000000000000000000000000000000000000"

/-- The faucet/factory dialect tags of `src/lib/faucet.ts` (`FaucetType`,
`FactoryType`): `dropcode`, `droplist` and `custom`. -/
inductive FaucetType where
  | dropcode
  | droplist
  | custom
deriving DecidableEq, Repr

/-- In the source, `FactoryType` has exactly the same three tags. -/
abbrev FactoryType := FaucetType

/-- The contract accessors used as probes by `detectFaucetType`
(lines 218-275 of `src/lib/faucet.ts`). -/
inductive FuncName where
  | name
  | claimAmount
  | isWhitelisted
  | getCustomClaimAmount
deriving DecidableEq, Repr

/-- Symbolic call data for the transactions the facade operations encode.
`withReferral` is the opaque suffix `appendDivviReferralData` appends. -/
inductive CallData where
  | empty
  | approve (spender : Address) (amount : Nat)
  | fund (amount : Nat)
  | withdraw (amount : Nat)
  | setWhitelistBatch (addrs : List Address) (status : Bool)
  | setCustomClaimAmountsBatch (users : List Address) (amounts : List Nat)
  | resetAllClaimed
  | setClaimParameters (claimAmount startTime endTime : Nat)
  | setClaimParametersCustom (startTime endTime : Nat)
  | updateName (nm : String)
  | deleteFaucetCall
  | addAdminCall (adminAddress : Address)
  | removeAdminCall (adminAddress : Address)
  | createCall (factoryType : FaucetType) (nm : String) (token : Address) (backend : Address)
  | withReferral (d : CallData)
deriving DecidableEq, Repr

/-- A transaction request as passed to `signer.sendTransaction`: the `to`
target (here `toAddr`), value, call data and the gas limit chosen by the
caller. -/
structure TxRequest where
  toAddr : Address
  value : Nat
  data : CallData
  gasLimit : Nat
deriving DecidableEq, Repr

/-- Chain interactions performed by the dialect detectors and operations:
read-only `staticCall` probes against a faucet ABI, read-only simulate
calls of a factory creation entry point, and real submissions. -/
inductive ChainAction where
  | staticCall (abi : FaucetType) (fn : FuncName)
  | factoryStaticCall (t : FactoryType)
  | sendTransaction (tx : TxRequest)
deriving DecidableEq, Repr

/-- An action is read-only unless it is a `sendTransaction`. -/
def ChainAction.isRead : ChainAction → Bool
  | .sendTransaction _ => false
  | _ => true

/-- `pre` is a prefix of `l`, on character lists. -/
def charsPrefix : List Char → List Char → Bool
  | [], _ => true
  | _ :: _, [] => false
  | p :: ps, c :: cs => p == c && charsPrefix ps cs

/-- `pat` occurs inside `l`, on character lists. -/
def charsContain (pat : List Char) : List Char → Bool
  | [] => charsPrefix pat []
  | c :: cs => charsPrefix pat (c :: cs) || charsContain pat cs

/-- JavaScript `String.prototype.includes`, used by the source to classify
error messages. -/
def strContains (s pat : String) : Bool :=
  charsContain pat.toList s.toList

/-! ## Gas estimation (`estimateGasWithFallback`, lines 102-115) -/

/-- `estimateGasWithFallback`: a successful estimate (`some g`) gets a 20%
buffer, `(estimated * 120n) / 100n` with BigInt (floor) division; a failed
estimation (`none`, the catch branch) yields the caller-supplied fallback
constant.  Translated from src/lib/faucet.ts lines 102-115. -/
def estimateGasWithFallback (estimated : Option Nat) (fallbackGas : Nat) : Nat :=
  match estimated with
  | some g => g * 120 / 100
  | none => fallbackGas

/-- Each call site of `estimateGasWithFallback` in `src/lib/faucet.ts`,
tagged by the operation that submits the resulting transaction. -/
inductive TxOp where
  | createFaucetOp
  | createFaucetWithValidationOp
  | fundNative
  | approveResetOp
  | approveOp
  | fundOp
  | withdrawOp
  | whitelistBatchOp
  | customAmountsOp
  | resetAllClaimsOp
  | setClaimParametersOp
  | updateNameOp
  | deleteFaucetOp
  | addAdminOp
  | removeAdminOp
  | storeClaimOp
  | resetClaimedOp
deriving DecidableEq, Repr

/-- The hard-coded fallback gas constant each call site passes to
`estimateGasWithFallback` (read off the corresponding lines of
`src/lib/faucet.ts`). -/
def fallbackGas : TxOp → Nat
  | .createFaucetOp => 1500000
  | .createFaucetWithValidationOp => 1500000
  | .fundNative => 100000
  | .approveResetOp => 100000
  | .approveOp => 200000
  | .fundOp => 300000
  | .withdrawOp => 300000
  | .whitelistBatchOp => 5000000
  | .customAmountsOp => 5000000
  | .resetAllClaimsOp => 1000000
  | .setClaimParametersOp => 500000
  | .updateNameOp => 300000
  | .deleteFaucetOp => 500000
  | .addAdminOp => 300000
  | .removeAdminOp => 300000
  | .storeClaimOp => 300000
  | .resetClaimedOp => 500000

/-- The gas limit an operation passes to `sendTransaction`: every call site
forwards the result of `estimateGasWithFallback` with its own fallback
constant, unmodified. -/
def opGasLimit (op : TxOp) (estimated : Option Nat) : Nat :=
  estimateGasWithFallback estimated (fallbackGas op)

/-! ## Dialect detection (`detectFactoryType` lines 164-188,
`detectFaucetType` lines 218-275) -/

/-- Outcome of one probe of `detectFaucetType`: the ethers `staticCall` of
function `fn` through the ABI of dialect `abi` either resolves (`.ok`) or
throws (`.error` with the error message).  A call throws both when the ABI
lacks the function (synchronous TypeError) and when the RPC call fails. -/
abbrev FaucetProbeOracle := FaucetType → FuncName → Except String Unit

/-- One iteration of the `for (const type of faucetTypes)` loop of
`detectFaucetType`.  Returns `some t` for `return t`, `none` for
`continue`, paired with the trace of chain probes attempted.  Every probe
failure is caught by one of the nested `try`/`catch` blocks of the source,
which is why no arm produces `Except.error`. -/
def faucetIter (o : FaucetProbeOracle) (t : FaucetType) :
    Except String (Option FaucetType) × List ChainAction :=
  match o t .name with
  | .error _ => (.ok none, [.staticCall t .name])
  | .ok _ =>
    match t with
    | .droplist =>
      match o .droplist .isWhitelisted with
      | .ok _ => (.ok (some .droplist),
          [.staticCall .droplist .name, .staticCall .droplist .isWhitelisted])
      | .error _ => (.ok none,
          [.staticCall .droplist .name, .staticCall .droplist .isWhitelisted])
    | .custom =>
      match o .custom .getCustomClaimAmount with
      | .ok _ => (.ok (some .custom),
          [.staticCall .custom .name, .staticCall .custom .getCustomClaimAmount])
      | .error _ => (.ok none,
          [.staticCall .custom .name, .staticCall .custom .getCustomClaimAmount])
    | .dropcode =>
      match o .dropcode .claimAmount with
      | .error _ => (.ok none,
          [.staticCall .dropcode .name, .staticCall .dropcode .claimAmount])
      | .ok _ =>
        match o .dropcode .isWhitelisted with
        | .ok _ => (.ok none,
            [.staticCall .dropcode .name, .staticCall .dropcode .claimAmount,
             .staticCall .dropcode .isWhitelisted])
        | .error _ =>
          match o .dropcode .getCustomClaimAmount with
          | .ok _ => (.ok none,
              [.staticCall .dropcode .name, .staticCall .dropcode .claimAmount,
               .staticCall .dropcode .isWhitelisted, .staticCall .dropcode .getCustomClaimAmount])
          | .error _ => (.ok (some .dropcode),
              [.staticCall .dropcode .name, .staticCall .dropcode .claimAmount,
               .staticCall .dropcode .isWhitelisted, .staticCall .dropcode .getCustomClaimAmount])

/-- `detectFaucetType`: iterate over `['dropcode', 'droplist', 'custom']`
in order; the first iteration that returns wins; if every iteration
continues, default to `dropcode` (line 274).  An `Except.error` from an
iteration would propagate (no surrounding catch in the source), which the
dead `.error` arms record. -/
def detectFaucetType (o : FaucetProbeOracle) :
    Except String FaucetType × List ChainAction :=
  match faucetIter o .dropcode with
  | (.error e, tr1) => (.error e, tr1)
  | (.ok (some t), tr1) => (.ok t, tr1)
  | (.ok none, tr1) =>
    match faucetIter o .droplist with
    | (.error e, tr2) => (.error e, tr1 ++ tr2)
    | (.ok (some t), tr2) => (.ok t, tr1 ++ tr2)
    | (.ok none, tr2) =>
      match faucetIter o .custom with
      | (.error e, tr3) => (.error e, tr1 ++ tr2 ++ tr3)
      | (.ok (some t), tr3) => (.ok t, tr1 ++ tr2 ++ tr3)
      | (.ok none, tr3) => (.ok .dropcode, tr1 ++ tr2 ++ tr3)

/-- Outcome of probing one factory creation entry point with placeholder
arguments (`detectFactoryType`): resolves, or throws with a message. -/
abbrev FactoryProbeOracle := FactoryType → Except String Unit

/-- The catch branch of `detectFactoryType` classifies an error as
"function does not exist" when its message includes both `function` and
`not found`. -/
def fnNotFoundError (e : String) : Bool :=
  strContains e "function" && strContains e "not found"

/-- One iteration of the `for (const type of factoryTypes)` loop of
`detectFactoryType`: success returns the type; an error returns the type
unless it is a function-not-found error, in which case the loop continues.
The weak signal is deliberate in the source (any other error is taken as
proof the function exists). -/
def factoryIter (o : FactoryProbeOracle) (t : FactoryType) :
    Except String (Option FactoryType) × List ChainAction :=
  match o t with
  | .ok _ => (.ok (some t), [.factoryStaticCall t])
  | .error e =>
    if fnNotFoundError e then (.ok none, [.factoryStaticCall t])
    else (.ok (some t), [.factoryStaticCall t])

/-- `detectFactoryType`: same iteration order and default as the faucet
detector (lines 164-188). -/
def detectFactoryType (o : FactoryProbeOracle) :
    Except String FactoryType × List ChainAction :=
  match factoryIter o .dropcode with
  | (.error e, tr1) => (.error e, tr1)
  | (.ok (some t), tr1) => (.ok t, tr1)
  | (.ok none, tr1) =>
    match factoryIter o .droplist with
    | (.error e, tr2) => (.error e, tr1 ++ tr2)
    | (.ok (some t), tr2) => (.ok t, tr1 ++ tr2)
    | (.ok none, tr2) =>
      match factoryIter o .custom with
      | (.error e, tr3) => (.error e, tr1 ++ tr2 ++ tr3)
      | (.ok (some t), tr3) => (.ok t, tr1 ++ tr2 ++ tr3)
      | (.ok none, tr3) => (.ok .dropcode, tr1 ++ tr2 ++ tr3)

/-- Modelled from the spec: the contents of the three faucet ABIs
(`FAUCET_ABI_DROPCODE`, `FAUCET_ABI_DROPLIST`, `FAUCET_ABI_CUSTOM` from
`./abis`, a module absent from src/).  Spec section 6 lists `name` and
`claimAmount` as common accessors and marks `isWhitelisted` as
droplist-specific and `getCustomClaimAmount` as custom-specific; the
custom dialect has no fixed `claimAmount` (spec section 4.4 and the
comment at line 1259 of faucet.ts). -/
def abiHas : FaucetType → FuncName → Bool
  | _, .name => true
  | .dropcode, .claimAmount => true
  | .droplist, .claimAmount => true
  | .custom, .claimAmount => false
  | .droplist, .isWhitelisted => true
  | _, .isWhitelisted => false
  | .custom, .getCustomClaimAmount => true
  | _, .getCustomClaimAmount => false

/-- Modelled from the spec: which accessors a deployed contract of each
true dialect answers (spec section 6: `name` universal, `claimAmount`
present except on custom faucets, `isWhitelisted` only on droplist,
`getCustomClaimAmount` only on custom). -/
def contractHas : FaucetType → FuncName → Bool
  | _, .name => true
  | .custom, .claimAmount => false
  | _, .claimAmount => true
  | .droplist, .isWhitelisted => true
  | _, .isWhitelisted => false
  | .custom, .getCustomClaimAmount => true
  | _, .getCustomClaimAmount => false

/-- The probe oracle of a live contract of true dialect `trueType` with no
RPC errors: an ethers `staticCall` resolves exactly when the function is
present in the ABI the detector is currently using and the contract
implements it. -/
def faucetProbeOracle (trueType : FaucetType) : FaucetProbeOracle :=
  fun abiType f =>
    if abiHas abiType f && contractHas trueType f then .ok ()
    else .error "probe failed"

/-! ## Receipt waiting (`safeWaitForReceipt`, lines 122-161) -/

/-- A single log entry of a transaction receipt, after the attempt to parse
it with the factory interface: either a successfully parsed `FaucetCreated`
event carrying the new faucet address, or anything else. -/
inductive LogEvent where
  | faucetCreated (faucet : Address)
  | other
deriving DecidableEq, Repr

/-- A transaction receipt: its status field and its logs. -/
structure Receipt where
  status : Nat
  logs : List LogEvent
deriving DecidableEq, Repr

/-- The `code` property of a wallet error: a number, a string, or absent. -/
inductive ErrCode where
  | num (n : Int)
  | str (s : String)
deriving DecidableEq, Repr

/-- A wallet error as inspected by `safeWaitForReceipt`: its `message`
(`""` when absent) and its optional `code`. -/
structure WalletError where
  msg : String
  code : Option ErrCode
deriving DecidableEq, Repr

/-- The compatibility-error test of `safeWaitForReceipt` (lines 134-139):
message includes `support` or `eth_getTransactionReceipt`, or code is
`4200` or `"UNKNOWN_ERROR"`. -/
def isCompatError (e : WalletError) : Bool :=
  strContains e.msg "support" || strContains e.msg "eth_getTransactionReceipt"
    || decide (e.code = some (.num 4200)) || decide (e.code = some (.str "UNKNOWN_ERROR"))

/-- Outcome of one `provider.getTransactionReceipt` poll: the call threw
(ignored by the source), returned `null`, or found a receipt. -/
inductive PollOutcome where
  | threw (msg : String)
  | nullReceipt
  | found (r : Receipt)
deriving DecidableEq, Repr

/-- The receipt a poll outcome delivers, if any. -/
def PollOutcome.receiptOf : PollOutcome → Option Receipt
  | .found r => some r
  | _ => none

/-- The manual polling loop of `safeWaitForReceipt` (lines 143-156):
starting at `attempt`, with `fuel` attempts left out of the 30 total,
return the first receipt found; errors during polling are swallowed and
the attempt still counts.  Each iteration first waits 2000 ms (timing is
not modelled). -/
def pollReceipt (polls : Nat → PollOutcome) : Nat → Nat → Option Receipt
  | _, 0 => none
  | attempt, fuel + 1 =>
    match polls attempt with
    | .found r => some r
    | _ => pollReceipt polls (attempt + 1) fuel

/-- `safeWaitForReceipt`: try `tx.wait()` first; on a compatibility-class
error poll `provider.getTransactionReceipt` (the same provider object the
operation already uses) up to 30 times; any non-null receipt is returned
as is; if polling finds nothing, or the error was not a compatibility
error, the original error is re-thrown.  Translated from lines 122-161. -/
def safeWaitForReceipt (waitResult : Except WalletError Receipt)
    (polls : Nat → PollOutcome) : Except WalletError Receipt :=
  match waitResult with
  | .ok r => .ok r
  | .error e =>
    if isCompatError e then
      match pollReceipt polls 0 30 with
      | some r => .ok r
      | none => .error e
    else .error e

/-! ## Facade operations (lines 2000-2532) -/

/-- `checkNetwork` (lines 378-381): current chain id equals the required
network id. -/
def checkNetwork (chainId networkId : Nat) : Bool :=
  chainId == networkId

/-- `isCeloNetwork` (lines 449-451): chain id 42220. -/
def isCeloNetwork (chainId : Nat) : Bool :=
  chainId == 42220

/-- The wrapped CELO token contract hard-coded at line 2155 of
`fundFaucet`. -/
def wrappedCeloAddress : Address := "0x471EcE3750Da237f93B8E339c536989b8978a438"

/-- The default `BACKEND_ADDRESS` (line 345), passed as third argument of
every factory creation call. -/
def VALID_BACKEND_ADDRESS : Address := "0x9fBC2A0de6e5C5Fd96e8D11541608f5F328C0785"

/-- Modelled from the spec: `appendDivviReferralData` from
`./divvi-integration` (a module absent from src/).  The spec glossary
describes the referral payload as an opaque appended call-data suffix that
the core logic never interprets, so it is modelled as a constructor
wrapping the original call data. -/
def appendDivviReferralData (d : CallData) : CallData :=
  .withReferral d

/-- `determineFactoryType` (lines 88-93). -/
def determineFactoryType (useBackend : Bool) (isCustom : Bool) : FactoryType :=
  if isCustom then .custom
  else if useBackend then .dropcode else .droplist

/-- A call is a token `approve` call, possibly under the referral suffix. -/
def isApproveCall : CallData → Bool
  | .approve _ _ => true
  | .withReferral d => isApproveCall d
  | _ => false

/-- A call is the faucet `fund` call, possibly under the referral suffix. -/
def isFundCall : CallData → Bool
  | .fund _ => true
  | .withReferral d => isFundCall d
  | _ => false

/-- `receipt.logs.map(parseLog).find(parsed => parsed.name === "FaucetCreated")`
followed by reading `event.args.faucet` (lines 2110-2116): the first log
that parses as a `FaucetCreated` event yields the created address. -/
def findFaucetCreated (logs : List LogEvent) : Option Address :=
  logs.findSome? fun l =>
    match l with
    | .faucetCreated a => some a
    | .other => none

/-- `fundFaucet` (lines 2121-2195).  Explicit outcome parameters: `tokenOf`
is what `faucetContract.token()` returns, `allowance` the current ERC-20
allowance, `est` the gas estimation outcome per call data, `hashes` the
hash of the i-th submitted transaction, `waits` the outcome of the i-th
`safeWaitForReceipt` (its thrown message when it fails).  Returns the
submitted transactions in order together with the resolved hash or the
thrown error message. -/
def fundFaucet (chainId networkId : Nat) (faucetAddress : Address) (amount : Nat)
    (isEther : Bool) (tokenOf : Address) (allowance : Nat)
    (est : CallData → Option Nat) (hashes : Nat → Hash)
    (waits : Nat → Except String Unit) : List TxRequest × Except String Hash :=
  if !(checkNetwork chainId networkId) then
    ([], .error "Switch to the network to perform operation")
  else
    let isCelo := isCeloNetwork chainId
    if isEther && !isCelo then
      let gasLimit := estimateGasWithFallback (est .empty) 100000
      let tx : TxRequest := ⟨faucetAddress, amount, .empty, gasLimit⟩
      match waits 0 with
      | .error m => ([tx], .error m)
      | .ok _ => ([tx], .ok (hashes 0))
    else
      let tokenAddress := if isEther && isCelo then wrappedCeloAddress else tokenOf
      if tokenAddress == ZeroAddress then ([], .error "Token address is zero")
      else
        let fundData := appendDivviReferralData (.fund amount)
        let fundTx : TxRequest :=
          ⟨faucetAddress, 0, fundData, estimateGasWithFallback (est fundData) 300000⟩
        if allowance < amount then
          let approveData := appendDivviReferralData (.approve faucetAddress amount)
          let approveTx : TxRequest :=
            ⟨tokenAddress, 0, approveData, estimateGasWithFallback (est approveData) 200000⟩
          if 0 < allowance then
            let resetData : CallData := .approve faucetAddress 0
            let resetTx : TxRequest :=
              ⟨tokenAddress, 0, resetData, estimateGasWithFallback (est resetData) 100000⟩
            match waits 0 with
            | .error m => ([resetTx], .error m)
            | .ok _ =>
              match waits 1 with
              | .error m => ([resetTx, approveTx], .error m)
              | .ok _ =>
                match waits 2 with
                | .error m => ([resetTx, approveTx, fundTx], .error m)
                | .ok _ => ([resetTx, approveTx, fundTx], .ok (hashes 2))
          else
            match waits 0 with
            | .error m => ([approveTx], .error m)
            | .ok _ =>
              match waits 1 with
              | .error m => ([approveTx, fundTx], .error m)
              | .ok _ => ([approveTx, fundTx], .ok (hashes 1))
        else
          match waits 0 with
          | .error m => ([fundTx], .error m)
          | .ok _ => ([fundTx], .ok (hashes 0))

/-- `withdrawTokens` (lines 2197-2224). -/
def withdrawTokens (chainId networkId : Nat) (faucetAddress : Address) (amount : Nat)
    (est : Option Nat) (txHash : Hash) (wait : Except String Unit) :
    List TxRequest × Except String Hash :=
  if !(checkNetwork chainId networkId) then
    ([], .error "Switch to the network to perform operation")
  else
    let data := appendDivviReferralData (.withdraw amount)
    let tx : TxRequest := ⟨faucetAddress, 0, data, estimateGasWithFallback est 300000⟩
    match wait with
    | .error m => ([tx], .error m)
    | .ok _ => ([tx], .ok txHash)

/-- `setWhitelistBatch` (lines 2225-2254).  `detectedFaucetType` stands for
`faucetType || await detectFaucetType(...)`. -/
def setWhitelistBatch (chainId networkId : Nat) (faucetAddress : Address)
    (addrs : List Address) (status : Bool) (detectedFaucetType : FaucetType)
    (est : Option Nat) (txHash : Hash) (wait : Except String Unit) :
    List TxRequest × Except String Hash :=
  if !(checkNetwork chainId networkId) then
    ([], .error "Switch to the network to perform operation")
  else if detectedFaucetType != .droplist then
    ([], .error "Whitelist only for droplist faucets")
  else
    let data := appendDivviReferralData (.setWhitelistBatch addrs status)
    let tx : TxRequest := ⟨faucetAddress, 0, data, estimateGasWithFallback est 5000000⟩
    match wait with
    | .error m => ([tx], .error m)
    | .ok _ => ([tx], .ok txHash)

/-- `setCustomClaimAmountsBatch` (lines 2256-2285). -/
def setCustomClaimAmountsBatch (chainId networkId : Nat) (faucetAddress : Address)
    (users : List Address) (amounts : List Nat) (detectedFaucetType : FaucetType)
    (est : Option Nat) (txHash : Hash) (wait : Except String Unit) :
    List TxRequest × Except String Hash :=
  if !(checkNetwork chainId networkId) then
    ([], .error "Switch to the network to perform operation")
  else if detectedFaucetType != .custom then
    ([], .error "Only for custom faucets")
  else
    let data := appendDivviReferralData (.setCustomClaimAmountsBatch users amounts)
    let tx : TxRequest := ⟨faucetAddress, 0, data, estimateGasWithFallback est 5000000⟩
    match wait with
    | .error m => ([tx], .error m)
    | .ok _ => ([tx], .ok txHash)

/-- `resetAllClaims` (lines 2287-2313). -/
def resetAllClaims (chainId networkId : Nat) (faucetAddress : Address)
    (est : Option Nat) (txHash : Hash) (wait : Except String Unit) :
    List TxRequest × Except String Hash :=
  if !(checkNetwork chainId networkId) then
    ([], .error "Switch to the network to perform operation")
  else
    let data := appendDivviReferralData .resetAllClaimed
    let tx : TxRequest := ⟨faucetAddress, 0, data, estimateGasWithFallback est 1000000⟩
    match wait with
    | .error m => ([tx], .error m)
    | .ok _ => ([tx], .ok txHash)

/-- `setClaimParameters` (lines 2315-2353).  `isOwner`/`isAdmin`/`isPaused`
are the values `checkPermissions` resolves; the custom dialect omits the
claim amount from the encoded arguments (lines 2338-2339). -/
def setClaimParameters (chainId networkId : Nat) (faucetAddress : Address)
    (claimAmount startTime endTime : Nat) (isOwner isAdmin isPaused : Bool)
    (detectedFaucetType : FaucetType) (est : Option Nat) (txHash : Hash)
    (wait : Except String Unit) : List TxRequest × Except String Hash :=
  if !(checkNetwork chainId networkId) then
    ([], .error "Switch to the network to perform operation")
  else if isPaused then ([], .error "Faucet is paused")
  else if !isOwner && !isAdmin then ([], .error "Not authorized")
  else
    let data :=
      if detectedFaucetType == .custom then
        CallData.setClaimParametersCustom startTime endTime
      else CallData.setClaimParameters claimAmount startTime endTime
    let dataWithReferral := appendDivviReferralData data
    let tx : TxRequest := ⟨faucetAddress, 0, dataWithReferral, estimateGasWithFallback est 500000⟩
    match wait with
    | .error m => ([tx], .error m)
    | .ok _ => ([tx], .ok txHash)

/-- `updateFaucetName` (lines 2355-2382). -/
def updateFaucetName (chainId networkId : Nat) (faucetAddress : Address) (nm : String)
    (est : Option Nat) (txHash : Hash) (wait : Except String Unit) :
    List TxRequest × Except String Hash :=
  if !(checkNetwork chainId networkId) then ([], .error "Switch network")
  else
    let data := appendDivviReferralData (.updateName nm)
    let tx : TxRequest := ⟨faucetAddress, 0, data, estimateGasWithFallback est 300000⟩
    match wait with
    | .error m => ([tx], .error m)
    | .ok _ => ([tx], .ok txHash)

/-- Outcome of the `fetch` in `deleteFaucetMetadata`: an OK response, a
non-OK response whose body parses (the source merely logs its detail), a
non-OK response whose body fails to parse (throws inside the try), or a
network failure (the fetch itself throws). -/
inductive MetadataOutcome where
  | ok
  | httpError (detail : String)
  | httpErrorBadJson
  | networkError (msg : String)
deriving DecidableEq, Repr

/-- The try-block body of `deleteFaucetMetadata` (lines 2058-2074): a
non-OK response only produces a `console.warn`; body parse failures and
network failures throw. -/
def deleteFaucetMetadataBody : MetadataOutcome → Except String Unit
  | .ok => .ok ()
  | .httpError _ => .ok ()
  | .httpErrorBadJson => .error "invalid json body"
  | .networkError m => .error m

/-- `deleteFaucetMetadata` (lines 2057-2078): the catch block swallows
every throw after logging, so the function always resolves. -/
def deleteFaucetMetadata (m : MetadataOutcome) : Except String Unit :=
  match deleteFaucetMetadataBody m with
  | .ok _ => .ok ()
  | .error _ => .ok ()

/-- `deleteFaucet` (lines 2384-2413): network check, submit the soft-delete
transaction, wait, then the best-effort metadata deletion (its hypothetical
throw would fail the operation, which the `.error` arm records), then
resolve with the transaction hash. -/
def deleteFaucet (chainId networkId : Nat) (faucetAddress : Address)
    (est : Option Nat) (txHash : Hash) (wait : Except String Unit)
    (m : MetadataOutcome) : List TxRequest × Except String Hash :=
  if !(checkNetwork chainId networkId) then ([], .error "Switch network")
  else
    let data := appendDivviReferralData .deleteFaucetCall
    let tx : TxRequest := ⟨faucetAddress, 0, data, estimateGasWithFallback est 500000⟩
    match wait with
    | .error msg => ([tx], .error msg)
    | .ok _ =>
      match deleteFaucetMetadata m with
      | .error msg => ([tx], .error msg)
      | .ok _ => ([tx], .ok txHash)

/-- `addAdmin` (lines 2415-2442). -/
def addAdmin (chainId networkId : Nat) (faucetAddress adminAddress : Address)
    (est : Option Nat) (txHash : Hash) (wait : Except String Unit) :
    List TxRequest × Except String Hash :=
  if !(checkNetwork chainId networkId) then ([], .error "Switch network")
  else
    let data := appendDivviReferralData (.addAdminCall adminAddress)
    let tx : TxRequest := ⟨faucetAddress, 0, data, estimateGasWithFallback est 300000⟩
    match wait with
    | .error m => ([tx], .error m)
    | .ok _ => ([tx], .ok txHash)

/-- `removeAdmin` (lines 2444-2471). -/
def removeAdmin (chainId networkId : Nat) (faucetAddress adminAddress : Address)
    (est : Option Nat) (txHash : Hash) (wait : Except String Unit) :
    List TxRequest × Except String Hash :=
  if !(checkNetwork chainId networkId) then ([], .error "Switch network")
  else
    let data := appendDivviReferralData (.removeAdminCall adminAddress)
    let tx : TxRequest := ⟨faucetAddress, 0, data, estimateGasWithFallback est 300000⟩
    match wait with
    | .error m => ([tx], .error m)
    | .ok _ => ([tx], .ok txHash)

/-- `createFaucet` (lines 2080-2120).  Note: unlike every other mutating
operation, the source performs no `checkNetwork` call; the `networkId`
parameter is accepted and never used.  `receipt` is the outcome of
`safeWaitForReceipt`: thrown message, `null` receipt, or the receipt logs.
Returns the submitted transaction and the created faucet address parsed
from the first `FaucetCreated` log. -/
def createFaucet (chainId networkId : Nat) (factoryAddress : Address) (nm : String)
    (tokenAddress : Address) (useBackend : Bool) (isCustom : Bool)
    (est : Option Nat) (receipt : Except String (Option (List LogEvent))) :
    List TxRequest × Except String Address :=
  let factoryType := determineFactoryType useBackend isCustom
  let data := CallData.createCall factoryType nm tokenAddress VALID_BACKEND_ADDRESS
  let dataWithReferral := appendDivviReferralData data
  let gasLimit := estimateGasWithFallback est 1500000
  let tx : TxRequest := ⟨factoryAddress, 0, dataWithReferral, gasLimit⟩
  match receipt with
  | .error m => ([tx], .error m)
  | .ok none => ([tx], .error "Transaction receipt is null")
  | .ok (some logs) =>
    match findFaucetCreated logs with
    | some a => ([tx], .ok a)
    | none => ([tx], .error "Failed to retrieve address")

/-! ## Theorems -/

/-- Helper: the polling loop finds nothing when every attempt in its window
delivers no receipt. -/
theorem pollReceipt_eq_none (polls : Nat → PollOutcome) :
    ∀ fuel attempt, (∀ k, attempt ≤ k → k < attempt + fuel → (polls k).receiptOf = none) →
    pollReceipt polls attempt fuel = none := by
  intro fuel
  induction fuel with
  | zero => intro attempt _; rfl
  | succ f ih =>
    intro attempt h
    have h0 : (polls attempt).receiptOf = none := h attempt (Nat.le_refl _) (by omega)
    cases hp : polls attempt with
    | found r => rw [hp] at h0; simp [PollOutcome.receiptOf] at h0
    | threw m =>
      simp only [pollReceipt, hp]
      exact ih (attempt + 1) (fun k hk1 hk2 => h k (by omega) (by omega))
    | nullReceipt =>
      simp only [pollReceipt, hp]
      exact ih (attempt + 1) (fun k hk1 hk2 => h k (by omega) (by omega))

/-- Helper: the polling loop returns the receipt of the first attempt when
that attempt finds one. -/
theorem pollReceipt_eq_found (polls : Nat → PollOutcome) (attempt fuel : Nat) (r : Receipt)
    (h : polls attempt = .found r) :
    pollReceipt polls attempt (fuel + 1) = some r := by
  simp only [pollReceipt, h]

/-- C1 counterexample: the claim says a successful estimation yields
`max(estimated * 1.2, fallback floor)`.  For the native funding operation
(fallback floor 100000) a successful estimate of 21000 yields
25200 = 21000 * 120 / 100, which is below the floor, so the gas limit is
not that maximum. -/
theorem opGasLimit_not_floored :
    opGasLimit TxOp.fundNative (some 21000)
      ≠ max (21000 * 120 / 100) (fallbackGas TxOp.fundNative) := by
  decide

/-- C1 (amended): for every transaction-submitting operation the gas limit
passed to `sendTransaction` equals `estimated * 120 / 100` (which may lie
below the fallback floor) when estimation succeeds and equals the
operation-specific fallback floor when estimation throws; it is always
set, every fallback floor is positive, and the limit is positive whenever
the successful estimate is at least one. -/
theorem opGasLimit_policy (op : TxOp) (g : Nat) :
    opGasLimit op (some g) = g * 120 / 100
  ∧ opGasLimit op none = fallbackGas op
  ∧ 0 < fallbackGas op
  ∧ (1 ≤ g → 0 < opGasLimit op (some g)) := by
  refine ⟨rfl, rfl, ?_, ?_⟩
  · cases op <;> decide
  · intro h
    simp only [opGasLimit, estimateGasWithFallback]
    omega

/-- Witness for `opGasLimit_policy` at the withdraw operation with a
successful estimate of 100. -/
theorem opGasLimit_policy_witness :
    0 < opGasLimit TxOp.withdrawOp (some 100)
  ∧ opGasLimit TxOp.withdrawOp none = fallbackGas TxOp.withdrawOp :=
  ⟨(opGasLimit_policy TxOp.withdrawOp 100).2.2.2 (by decide),
   (opGasLimit_policy TxOp.withdrawOp 100).2.1⟩

/-- C3: evaluating the faucet dialect detector on live contracts of each
true dialect, with every probe answering exactly as the true dialect
dictates and no RPC errors.  Dropcode and custom contracts are detected
correctly, but a droplist contract is classified as `dropcode`: in the
first loop iteration the dropcode ABI resolves `name` and `claimAmount`,
and the `isWhitelisted`/`getCustomClaimAmount` counter-probes throw
because the dropcode ABI does not contain them, so the loop returns
`dropcode` before the droplist iteration can run. -/
theorem detectFaucetType_true_dialects :
    (detectFaucetType (faucetProbeOracle .dropcode)).1 = .ok .dropcode
  ∧ (detectFaucetType (faucetProbeOracle .custom)).1 = .ok .custom
  ∧ (detectFaucetType (faucetProbeOracle .droplist)).1 = .ok .dropcode
  ∧ FaucetType.dropcode ≠ FaucetType.droplist :=
  ⟨rfl, rfl, rfl, by decide⟩

/-- C5 counterexample: the claim says the executor returns the receipt only
once it is non-null with `status = 1`, and returns a distinct
ConfirmationTimeout error after 30 null attempts.  The code returns the
very first non-null receipt even with `status = 0`, and after 30 null
attempts re-throws the original wallet error object unchanged. -/
theorem safeWaitForReceipt_claim_false :
    safeWaitForReceipt
        (.error ⟨"unsupported method eth_getTransactionReceipt", some (.num 4200)⟩)
        (fun _ => .found ⟨0, []⟩)
      = .ok ⟨0, []⟩
  ∧ (Receipt.mk 0 []).status ≠ 1
  ∧ safeWaitForReceipt
        (.error ⟨"unsupported method eth_getTransactionReceipt", some (.num 4200)⟩)
        (fun _ => .nullReceipt)
      = .error ⟨"unsupported method eth_getTransactionReceipt", some (.num 4200)⟩ :=
  ⟨rfl, by decide, rfl⟩

/-- C5 (amended): on a compatibility-class wallet error the executor polls
`getTransactionReceipt` on the provider it was given, every 2 seconds for
up to 30 attempts; any non-null receipt is returned as is, without a
status check; if all 30 attempts deliver no receipt, the original wallet
error is re-thrown (there is no distinct ConfirmationTimeout error); a
non-compatibility error is re-thrown without polling. -/
theorem safeWaitForReceipt_behaviour (e : WalletError) (polls : Nat → PollOutcome) (r : Receipt) :
    safeWaitForReceipt (.ok r) polls = .ok r
  ∧ (isCompatError e = false → safeWaitForReceipt (.error e) polls = .error e)
  ∧ (isCompatError e = true → (∀ k, k < 30 → (polls k).receiptOf = none) →
      safeWaitForReceipt (.error e) polls = .error e)
  ∧ (isCompatError e = true → polls 0 = .found r →
      safeWaitForReceipt (.error e) polls = .ok r) := by
  refine ⟨rfl, ?_, ?_, ?_⟩
  · intro h
    simp [safeWaitForReceipt, h]
  · intro h hall
    have hnone : pollReceipt polls 0 30 = none :=
      pollReceipt_eq_none polls 30 0 (fun k _ hk => hall k (by omega))
    simp [safeWaitForReceipt, h, hnone]
  · intro h h0
    have hfound : pollReceipt polls 0 30 = some r := pollReceipt_eq_found polls 0 29 r h0
    simp [safeWaitForReceipt, h, hfound]

/-- Witness for `safeWaitForReceipt_behaviour`: a receipt found on the
first poll is returned, and an all-null polling window re-throws the
original error. -/
theorem safeWaitForReceipt_behaviour_witness :
    safeWaitForReceipt (.error ⟨"unsupported method", some (.num 4200)⟩)
        (fun _ => .found ⟨1, []⟩)
      = .ok ⟨1, []⟩
  ∧ safeWaitForReceipt (.error ⟨"unsupported method", none⟩) (fun _ => .nullReceipt)
      = .error ⟨"unsupported method", none⟩ :=
  ⟨(safeWaitForReceipt_behaviour ⟨"unsupported method", some (.num 4200)⟩
      (fun _ => .found ⟨1, []⟩) ⟨1, []⟩).2.2.2 rfl rfl,
   (safeWaitForReceipt_behaviour ⟨"unsupported method", none⟩
      (fun _ => .nullReceipt) ⟨0, []⟩).2.2.1 rfl (fun k _ => rfl)⟩

/-- Helper: `createFaucet` submits its factory transaction no matter what
the receipt outcome is. -/
theorem createFaucet_txs_eq (chainId networkId : Nat) (factoryAddress : Address) (nm : String)
    (tokenAddress : Address) (useBackend isCustom : Bool) (est : Option Nat)
    (receipt : Except String (Option (List LogEvent))) :
    (createFaucet chainId networkId factoryAddress nm tokenAddress useBackend isCustom est receipt).1
      = [⟨factoryAddress, 0,
          appendDivviReferralData
            (CallData.createCall (determineFactoryType useBackend isCustom) nm tokenAddress
              VALID_BACKEND_ADDRESS),
          estimateGasWithFallback est 1500000⟩] := by
  rcases receipt with e | mlogs
  · rfl
  · rcases mlogs with _ | logs
    · rfl
    · simp only [createFaucet]
      rcases h : findFaucetCreated logs with _ | a <;> simp [h]

/-- C6: creating a custom faucet via the factory when gas estimation
throws submits with the 1500000 fallback gas limit, and the returned
address is the `faucet` argument of the first `FaucetCreated` event parsed
from the receipt logs; a receipt without such a log rejects. -/
theorem createFaucet_custom_event (chainId networkId : Nat)
    (factoryAddress : Address) (nm : String) (tokenAddress : Address)
    (logs logsN : List LogEvent) (a : Address)
    (hfind : findFaucetCreated logs = some a)
    (hnone : findFaucetCreated logsN = none) :
    createFaucet chainId networkId factoryAddress nm tokenAddress false true none (.ok (some logs))
      = ([⟨factoryAddress, 0,
            appendDivviReferralData
              (CallData.createCall .custom nm tokenAddress VALID_BACKEND_ADDRESS),
            1500000⟩], .ok a)
  ∧ (createFaucet chainId networkId factoryAddress nm tokenAddress false true none
        (.ok (some logsN))).2
      = .error "Failed to retrieve address" := by
  constructor
  · simp [createFaucet, determineFactoryType, hfind, estimateGasWithFallback]
  · simp [createFaucet, hnone]

/-- Witness for `createFaucet_custom_event` with a concrete receipt whose
second log is the `FaucetCreated` event. -/
theorem createFaucet_custom_event_witness :
    createFaucet 42220 42220 "0xFACT" "Test" "0x000000000000000000000000000000000000dEaD"
        false true none (.ok (some [LogEvent.other, LogEvent.faucetCreated "0xNEW"]))
      = ([⟨"0xFACT", 0,
            appendDivviReferralData
              (CallData.createCall .custom "Test" "0x000000000000000000000000000000000000dEaD"
                VALID_BACKEND_ADDRESS),
            1500000⟩], .ok "0xNEW") :=
  (createFaucet_custom_event 42220 42220 "0xFACT" "Test"
    "0x000000000000000000000000000000000000dEaD"
    [LogEvent.other, LogEvent.faucetCreated "0xNEW"] [LogEvent.other] "0xNEW" rfl rfl).1

/-- C9: every outcome of the metadata-deletion HTTP call is swallowed by
`deleteFaucetMetadata`, and `deleteFaucet` therefore resolves with the
transaction hash of the confirmed on-chain delete transaction for every
such outcome. -/
theorem deleteFaucet_swallows_metadata_failures (m : MetadataOutcome) (chainId : Nat)
    (faucetAddress : Address) (est : Option Nat) (txHash : Hash) :
    deleteFaucetMetadata m = .ok ()
  ∧ deleteFaucet chainId chainId faucetAddress est txHash (.ok ()) m
      = ([⟨faucetAddress, 0, appendDivviReferralData .deleteFaucetCall,
           estimateGasWithFallback est 500000⟩], .ok txHash) := by
  have hm : deleteFaucetMetadata m = .ok () := by cases m <;> rfl
  refine ⟨hm, ?_⟩
  simp [deleteFaucet, checkNetwork, hm]

/-- Helper: every iteration of the faucet detector loop ends in a caught
state, never in an uncaught exception. -/
theorem faucetIter_shape (o : FaucetProbeOracle) (t : FaucetType) :
    ∃ r, (faucetIter o t).1 = Except.ok r := by
  cases t
  case dropcode =>
    simp only [faucetIter]
    cases o FaucetType.dropcode FuncName.name
    case error e => exact ⟨none, rfl⟩
    case ok u =>
      cases o FaucetType.dropcode FuncName.claimAmount
      case error e => exact ⟨none, rfl⟩
      case ok u2 =>
        cases o FaucetType.dropcode FuncName.isWhitelisted
        case ok u3 => exact ⟨none, rfl⟩
        case error e3 =>
          cases o FaucetType.dropcode FuncName.getCustomClaimAmount
          case ok u4 => exact ⟨none, rfl⟩
          case error e4 => exact ⟨some .dropcode, rfl⟩
  case droplist =>
    simp only [faucetIter]
    cases o FaucetType.droplist FuncName.name
    case error e => exact ⟨none, rfl⟩
    case ok u =>
      cases o FaucetType.droplist FuncName.isWhitelisted
      case ok u2 => exact ⟨some .droplist, rfl⟩
      case error e2 => exact ⟨none, rfl⟩
  case custom =>
    simp only [faucetIter]
    cases o FaucetType.custom FuncName.name
    case error e => exact ⟨none, rfl⟩
    case ok u =>
      cases o FaucetType.custom FuncName.getCustomClaimAmount
      case ok u2 => exact ⟨some .custom, rfl⟩
      case error e2 => exact ⟨none, rfl⟩

/-- Helper: the faucet detector always resolves with some dialect. -/
theorem detectFaucetType_shape (o : FaucetProbeOracle) :
    ∃ t, (detectFaucetType o).1 = Except.ok t := by
  unfold detectFaucetType
  obtain ⟨r1, h1⟩ := faucetIter_shape o .dropcode
  rcases hf1 : faucetIter o FaucetType.dropcode with ⟨x1, tr1⟩
  rw [hf1] at h1
  simp only at h1
  subst h1
  cases r1 with
  | some t => exact ⟨t, rfl⟩
  | none =>
    obtain ⟨r2, h2⟩ := faucetIter_shape o .droplist
    rcases hf2 : faucetIter o FaucetType.droplist with ⟨x2, tr2⟩
    rw [hf2] at h2
    simp only at h2
    subst h2
    cases r2 with
    | some t => exact ⟨t, rfl⟩
    | none =>
      obtain ⟨r3, h3⟩ := faucetIter_shape o .custom
      rcases hf3 : faucetIter o FaucetType.custom with ⟨x3, tr3⟩
      rw [hf3] at h3
      simp only at h3
      subst h3
      cases r3 with
      | some t => exact ⟨t, rfl⟩
      | none => exact ⟨.dropcode, rfl⟩

/-- Helper: a faucet iteration whose universal `name` probe throws is a
plain continue. -/
theorem faucetIter_allfail (o : FaucetProbeOracle) (t : FaucetType) (e : String)
    (h : o t FuncName.name = .error e) :
    faucetIter o t = (.ok none, [.staticCall t .name]) := by
  cases t <;> simp [faucetIter, h]

/-- Helper: every iteration of the factory detector loop ends in a caught
state. -/
theorem factoryIter_shape (o : FactoryProbeOracle) (t : FactoryType) :
    ∃ r, (factoryIter o t).1 = Except.ok r := by
  unfold factoryIter
  cases o t
  case ok u => exact ⟨some t, rfl⟩
  case error e =>
    by_cases hn : fnNotFoundError e = true
    · exact ⟨none, by simp [hn]⟩
    · exact ⟨some t, by simp [hn]⟩

/-- Helper: the factory detector always resolves with some dialect. -/
theorem detectFactoryType_shape (o : FactoryProbeOracle) :
    ∃ t, (detectFactoryType o).1 = Except.ok t := by
  unfold detectFactoryType
  obtain ⟨r1, h1⟩ := factoryIter_shape o .dropcode
  rcases hf1 : factoryIter o FaucetType.dropcode with ⟨x1, tr1⟩
  rw [hf1] at h1
  simp only at h1
  subst h1
  cases r1 with
  | some t => exact ⟨t, rfl⟩
  | none =>
    obtain ⟨r2, h2⟩ := factoryIter_shape o .droplist
    rcases hf2 : factoryIter o FaucetType.droplist with ⟨x2, tr2⟩
    rw [hf2] at h2
    simp only at h2
    subst h2
    cases r2 with
    | some t => exact ⟨t, rfl⟩
    | none =>
      obtain ⟨r3, h3⟩ := factoryIter_shape o .custom
      rcases hf3 : factoryIter o FaucetType.custom with ⟨x3, tr3⟩
      rw [hf3] at h3
      simp only at h3
      subst h3
      cases r3 with
      | some t => exact ⟨t, rfl⟩
      | none => exact ⟨.dropcode, rfl⟩

/-- Helper: a factory iteration whose probe throws a function-not-found
error is a continue. -/
theorem factoryIter_notfound (o : FactoryProbeOracle) (t : FactoryType) (e : String)
    (h : o t = .error e) (hn : fnNotFoundError e = true) :
    factoryIter o t = (.ok none, [.factoryStaticCall t]) := by
  simp [factoryIter, h, hn]

/-- C7 counterexample: the claim says that when every probe errors the
detectors return `dropcode`.  For the factory detector, a first probe
failing with a function-not-found error followed by a second probe failing
with any other error (e.g. a revert) makes the loop accept `droplist`,
because a non-not-found error is treated as proof that the creation entry
point exists. -/
theorem detectFactoryType_mixed_errors :
    (detectFactoryType (fun t => match t with
        | FaucetType.dropcode => Except.error "function createBackendFaucet not found"
        | _ => Except.error "execution reverted")).1
      = Except.ok FaucetType.droplist
  ∧ FaucetType.droplist ≠ FaucetType.dropcode :=
  ⟨rfl, by decide⟩

/-- C7 (amended): both detectors always resolve with a dialect and never
propagate an exception, whatever the probe outcomes; the faucet detector
returns the default `dropcode` whenever every probe errors; the factory
detector returns the default `dropcode` whenever every probe fails with a
function-not-found class error, while a probe failing with any other
error is accepted as a conclusive match for that dialect. -/
theorem detectors_never_throw :
    (∀ o : FaucetProbeOracle, ∃ t, (detectFaucetType o).1 = Except.ok t)
  ∧ (∀ o : FaucetProbeOracle, (∀ t f, ∃ e, o t f = Except.error e) →
      (detectFaucetType o).1 = Except.ok FaucetType.dropcode)
  ∧ (∀ o : FactoryProbeOracle, ∃ t, (detectFactoryType o).1 = Except.ok t)
  ∧ (∀ o : FactoryProbeOracle,
      (∀ t, ∃ e, o t = Except.error e ∧ fnNotFoundError e = true) →
      (detectFactoryType o).1 = Except.ok FaucetType.dropcode) := by
  refine ⟨detectFaucetType_shape, ?_, detectFactoryType_shape, ?_⟩
  · intro o h
    obtain ⟨e1, he1⟩ := h .dropcode .name
    obtain ⟨e2, he2⟩ := h .droplist .name
    obtain ⟨e3, he3⟩ := h .custom .name
    unfold detectFaucetType
    rw [faucetIter_allfail o .dropcode e1 he1, faucetIter_allfail o .droplist e2 he2,
        faucetIter_allfail o .custom e3 he3]
  · intro o h
    obtain ⟨e1, he1, hn1⟩ := h .dropcode
    obtain ⟨e2, he2, hn2⟩ := h .droplist
    obtain ⟨e3, he3, hn3⟩ := h .custom
    unfold detectFactoryType
    rw [factoryIter_notfound o .dropcode e1 he1 hn1, factoryIter_notfound o .droplist e2 he2 hn2,
        factoryIter_notfound o .custom e3 he3 hn3]

/-- Witness for `detectors_never_throw`: with every probe erroring, both
detectors return the default dialect. -/
theorem detectors_never_throw_witness :
    (detectFaucetType (fun _ _ => Except.error "rpc unreachable")).1
      = Except.ok FaucetType.dropcode
  ∧ (detectFactoryType (fun _ => Except.error "function not found")).1
      = Except.ok FaucetType.dropcode :=
  ⟨detectors_never_throw.2.1 _ (fun _ _ => ⟨"rpc unreachable", rfl⟩),
   detectors_never_throw.2.2.2 _ (fun _ => ⟨"function not found", rfl, rfl⟩)⟩

/-- Helper: every chain action a faucet detector iteration performs is a
read-only static call. -/
theorem faucetIter_read (o : FaucetProbeOracle) (t : FaucetType) :
    ∀ a ∈ (faucetIter o t).2, a.isRead = true := by
  cases t
  case dropcode =>
    simp only [faucetIter]
    cases o FaucetType.dropcode FuncName.name
    case error e => simp [ChainAction.isRead]
    case ok u =>
      cases o FaucetType.dropcode FuncName.claimAmount
      case error e => simp [ChainAction.isRead]
      case ok u2 =>
        cases o FaucetType.dropcode FuncName.isWhitelisted
        case ok u3 => simp [ChainAction.isRead]
        case error e3 =>
          cases o FaucetType.dropcode FuncName.getCustomClaimAmount
          case ok u4 => simp [ChainAction.isRead]
          case error e4 => simp [ChainAction.isRead]
  case droplist =>
    simp only [faucetIter]
    cases o FaucetType.droplist FuncName.name
    case error e => simp [ChainAction.isRead]
    case ok u =>
      cases o FaucetType.droplist FuncName.isWhitelisted
      case ok u2 => simp [ChainAction.isRead]
      case error e2 => simp [ChainAction.isRead]
  case custom =>
    simp only [faucetIter]
    cases o FaucetType.custom FuncName.name
    case error e => simp [ChainAction.isRead]
    case ok u =>
      cases o FaucetType.custom FuncName.getCustomClaimAmount
      case ok u2 => simp [ChainAction.isRead]
      case error e2 => simp [ChainAction.isRead]

/-- Helper: the complete faucet detector trace is read-only. -/
theorem detectFaucetType_read (o : FaucetProbeOracle) :
    ∀ a ∈ (detectFaucetType o).2, a.isRead = true := by
  unfold detectFaucetType
  have H1 := faucetIter_read o .dropcode
  have H2 := faucetIter_read o .droplist
  have H3 := faucetIter_read o .custom
  rcases hf1 : faucetIter o FaucetType.dropcode with ⟨x1, tr1⟩
  rw [hf1] at H1
  cases x1 with
  | error e => exact H1
  | ok r1 =>
    cases r1 with
    | some t => exact H1
    | none =>
      rcases hf2 : faucetIter o FaucetType.droplist with ⟨x2, tr2⟩
      rw [hf2] at H2
      cases x2 with
      | error e =>
        intro a ha
        rcases List.mem_append.mp ha with hm | hm
        exacts [H1 a hm, H2 a hm]
      | ok r2 =>
        cases r2 with
        | some t =>
          intro a ha
          rcases List.mem_append.mp ha with hm | hm
          exacts [H1 a hm, H2 a hm]
        | none =>
          rcases hf3 : faucetIter o FaucetType.custom with ⟨x3, tr3⟩
          rw [hf3] at H3
          cases x3 with
          | error e =>
            intro a ha
            rcases List.mem_append.mp ha with hm | hm
            · rcases List.mem_append.mp hm with hm2 | hm2
              exacts [H1 a hm2, H2 a hm2]
            · exact H3 a hm
          | ok r3 =>
            cases r3 with
            | some t =>
              intro a ha
              rcases List.mem_append.mp ha with hm | hm
              · rcases List.mem_append.mp hm with hm2 | hm2
                exacts [H1 a hm2, H2 a hm2]
              · exact H3 a hm
            | none =>
              intro a ha
              rcases List.mem_append.mp ha with hm | hm
              · rcases List.mem_append.mp hm with hm2 | hm2
                exacts [H1 a hm2, H2 a hm2]
              · exact H3 a hm

/-- Helper: every chain action a factory detector iteration performs is a
read-only simulate call. -/
theorem factoryIter_read (o : FactoryProbeOracle) (t : FactoryType) :
    ∀ a ∈ (factoryIter o t).2, a.isRead = true := by
  unfold factoryIter
  cases o t
  case ok u => simp [ChainAction.isRead]
  case error e =>
    by_cases hn : fnNotFoundError e = true <;> simp [hn, ChainAction.isRead]

/-- Helper: the complete factory detector trace is read-only. -/
theorem detectFactoryType_read (o : FactoryProbeOracle) :
    ∀ a ∈ (detectFactoryType o).2, a.isRead = true := by
  unfold detectFactoryType
  have H1 := factoryIter_read o .dropcode
  have H2 := factoryIter_read o .droplist
  have H3 := factoryIter_read o .custom
  rcases hf1 : factoryIter o FaucetType.dropcode with ⟨x1, tr1⟩
  rw [hf1] at H1
  cases x1 with
  | error e => exact H1
  | ok r1 =>
    cases r1 with
    | some t => exact H1
    | none =>
      rcases hf2 : factoryIter o FaucetType.droplist with ⟨x2, tr2⟩
      rw [hf2] at H2
      cases x2 with
      | error e =>
        intro a ha
        rcases List.mem_append.mp ha with hm | hm
        exacts [H1 a hm, H2 a hm]
      | ok r2 =>
        cases r2 with
        | some t =>
          intro a ha
          rcases List.mem_append.mp ha with hm | hm
          exacts [H1 a hm, H2 a hm]
        | none =>
          rcases hf3 : factoryIter o FaucetType.custom with ⟨x3, tr3⟩
          rw [hf3] at H3
          cases x3 with
          | error e =>
            intro a ha
            rcases List.mem_append.mp ha with hm | hm
            · rcases List.mem_append.mp hm with hm2 | hm2
              exacts [H1 a hm2, H2 a hm2]
            · exact H3 a hm
          | ok r3 =>
            cases r3 with
            | some t =>
              intro a ha
              rcases List.mem_append.mp ha with hm | hm
              · rcases List.mem_append.mp hm with hm2 | hm2
                exacts [H1 a hm2, H2 a hm2]
              · exact H3 a hm
            | none =>
              intro a ha
              rcases List.mem_append.mp ha with hm | hm
              · rcases List.mem_append.mp hm with hm2 | hm2
                exacts [H1 a hm2, H2 a hm2]
              · exact H3 a hm

/-- C8: both detectors are deterministic functions of the probe outcomes
(two runs over pointwise-equal probe outcomes give the same dialect), and
every chain action they perform is a read-only call (no transaction is
ever submitted). -/
theorem detection_deterministic_readonly :
    (∀ o₁ o₂ : FaucetProbeOracle, (∀ t f, o₁ t f = o₂ t f) →
        (detectFaucetType o₁).1 = (detectFaucetType o₂).1)
  ∧ (∀ o₁ o₂ : FactoryProbeOracle, (∀ t, o₁ t = o₂ t) →
        (detectFactoryType o₁).1 = (detectFactoryType o₂).1)
  ∧ (∀ o : FaucetProbeOracle, ∀ a ∈ (detectFaucetType o).2, a.isRead = true)
  ∧ (∀ o : FactoryProbeOracle, ∀ a ∈ (detectFactoryType o).2, a.isRead = true) := by
  refine ⟨?_, ?_, detectFaucetType_read, detectFactoryType_read⟩
  · intro o₁ o₂ h
    have ho : o₁ = o₂ := funext fun t => funext fun f => h t f
    rw [ho]
  · intro o₁ o₂ h
    have ho : o₁ = o₂ := funext fun t => h t
    rw [ho]

/-- Witness for `detection_deterministic_readonly`: two runs on the probe
outcomes of a live dropcode contract agree, and the first probe of its
trace is read-only. -/
theorem detection_deterministic_readonly_witness :
    (detectFaucetType (faucetProbeOracle FaucetType.dropcode)).1
      = (detectFaucetType (faucetProbeOracle FaucetType.dropcode)).1
  ∧ ChainAction.isRead (ChainAction.staticCall FaucetType.dropcode FuncName.name) = true :=
  ⟨detection_deterministic_readonly.1 _ _ (fun _ _ => rfl),
   detection_deterministic_readonly.2.2.1 (faucetProbeOracle FaucetType.dropcode)
     (ChainAction.staticCall FaucetType.dropcode FuncName.name) (by decide)⟩

/-- C2: evaluating every mutating facade operation under a network
mismatch.  The ten operations that call `checkNetwork` reject with the
network-mismatch message and submit no transaction; `createFaucet`,
however, performs no network check at all (its `networkId` parameter is
unused) and still submits its factory transaction, contradicting the
claim for the create operation. -/
theorem mutating_ops_network_guard
    (chainId networkId : Nat) (faucetAddress tokenOf adminAddress factoryAddress : Address)
    (amount allowance claimAmount startTime endTime : Nat) (nm : String)
    (addrs : List Address) (amounts : List Nat) (status isEther : Bool)
    (isOwner isAdmin isPaused useBackend isCustom : Bool) (ft : FaucetType)
    (est : Option Nat) (estF : CallData → Option Nat) (txHash : Hash) (hashes : Nat → Hash)
    (wait : Except String Unit) (waits : Nat → Except String Unit) (m : MetadataOutcome)
    (receipt : Except String (Option (List LogEvent)))
    (h : chainId ≠ networkId) :
    fundFaucet chainId networkId faucetAddress amount isEther tokenOf allowance estF hashes waits
      = ([], .error "Switch to the network to perform operation")
  ∧ withdrawTokens chainId networkId faucetAddress amount est txHash wait
      = ([], .error "Switch to the network to perform operation")
  ∧ setWhitelistBatch chainId networkId faucetAddress addrs status ft est txHash wait
      = ([], .error "Switch to the network to perform operation")
  ∧ setCustomClaimAmountsBatch chainId networkId faucetAddress addrs amounts ft est txHash wait
      = ([], .error "Switch to the network to perform operation")
  ∧ resetAllClaims chainId networkId faucetAddress est txHash wait
      = ([], .error "Switch to the network to perform operation")
  ∧ setClaimParameters chainId networkId faucetAddress claimAmount startTime endTime
        isOwner isAdmin isPaused ft est txHash wait
      = ([], .error "Switch to the network to perform operation")
  ∧ updateFaucetName chainId networkId faucetAddress nm est txHash wait
      = ([], .error "Switch network")
  ∧ deleteFaucet chainId networkId faucetAddress est txHash wait m
      = ([], .error "Switch network")
  ∧ addAdmin chainId networkId faucetAddress adminAddress est txHash wait
      = ([], .error "Switch network")
  ∧ removeAdmin chainId networkId faucetAddress adminAddress est txHash wait
      = ([], .error "Switch network")
  ∧ (createFaucet chainId networkId factoryAddress nm tokenOf useBackend isCustom est receipt).1
      ≠ [] := by
  have hb : (chainId == networkId) = false := by
    cases hc : chainId == networkId with
    | false => rfl
    | true => exact absurd (eq_of_beq hc) h
  refine ⟨?_, ?_, ?_, ?_, ?_, ?_, ?_, ?_, ?_, ?_, ?_⟩
  · simp [fundFaucet, checkNetwork, hb]
  · simp [withdrawTokens, checkNetwork, hb]
  · simp [setWhitelistBatch, checkNetwork, hb]
  · simp [setCustomClaimAmountsBatch, checkNetwork, hb]
  · simp [resetAllClaims, checkNetwork, hb]
  · simp [setClaimParameters, checkNetwork, hb]
  · simp [updateFaucetName, checkNetwork, hb]
  · simp [deleteFaucet, checkNetwork, hb]
  · simp [addAdmin, checkNetwork, hb]
  · simp [removeAdmin, checkNetwork, hb]
  · rw [createFaucet_txs_eq]
    simp

/-- Witness for `mutating_ops_network_guard` at chain id 1 against required
network 42220: funding rejects without a transaction, creating submits
anyway. -/
theorem mutating_ops_network_guard_witness :
    fundFaucet 1 42220 "0xFAUCET" 1000 true "0xTOKEN" 0 (fun _ => none) (fun _ => "0xHASH")
        (fun _ => .ok ())
      = ([], .error "Switch to the network to perform operation")
  ∧ (createFaucet 1 42220 "0xFACTORY" "Test" "0xTOKEN" false true none
        (.ok (some [LogEvent.faucetCreated "0xNEW"]))).1 ≠ [] := by
  have h := mutating_ops_network_guard 1 42220 "0xFAUCET" "0xTOKEN" "0xADMIN" "0xFACTORY"
    1000 0 0 0 0 "Test" [] [] true true false false false false true FaucetType.dropcode
    none (fun _ => none) "0xHASH" (fun _ => "0xHASH") (.ok ()) (fun _ => .ok ())
    MetadataOutcome.ok (.ok (some [LogEvent.faucetCreated "0xNEW"])) (by decide)
  exact ⟨h.1, h.2.2.2.2.2.2.2.2.2.2⟩

/-- C4: for an ERC-20 funding (isEther false, valid token) with every
receipt wait succeeding, an existing nonzero but insufficient allowance
produces exactly two approve transactions (reset to zero, then approve to
the amount) before the single fund transaction; a sufficient allowance
produces zero approve transactions, only the fund transaction. -/
theorem fundFaucet_allowance_dance
    (chainId : Nat) (faucetAddress tokenOf : Address) (amount allowance : Nat)
    (est : CallData → Option Nat) (hashes : Nat → Hash) (waits : Nat → Except String Unit)
    (htok : (tokenOf == ZeroAddress) = false) (hw : ∀ k, waits k = .ok ()) :
    (0 < allowance → allowance < amount →
        (fundFaucet chainId chainId faucetAddress amount false tokenOf allowance est hashes
            waits).1.map (fun tx => isApproveCall tx.data) = [true, true, false]
      ∧ (fundFaucet chainId chainId faucetAddress amount false tokenOf allowance est hashes
            waits).1.map (fun tx => isFundCall tx.data) = [false, false, true])
  ∧ (amount ≤ allowance →
        (fundFaucet chainId chainId faucetAddress amount false tokenOf allowance est hashes
            waits).1.map (fun tx => isApproveCall tx.data) = [false]
      ∧ (fundFaucet chainId chainId faucetAddress amount false tokenOf allowance est hashes
            waits).1.map (fun tx => isFundCall tx.data) = [true]) := by
  constructor
  · intro h0 hlt
    constructor <;>
      simp [fundFaucet, checkNetwork, isCeloNetwork, htok, hw, hlt, h0,
        appendDivviReferralData, isApproveCall, isFundCall]
  · intro hge
    have hnlt : ¬ allowance < amount := not_lt.mpr hge
    constructor <;>
      simp [fundFaucet, checkNetwork, isCeloNetwork, htok, hw, hnlt,
        appendDivviReferralData, isApproveCall, isFundCall]

/-- Witness for `fundFaucet_allowance_dance` with amount 100 against
allowances 50 (two approvals) and 200 (no approval). -/
theorem fundFaucet_allowance_dance_witness :
    (fundFaucet 1 1 "0xF" 100 false "0xT" 50 (fun _ => none) (fun _ => "0xh")
        (fun _ => .ok ())).1.map (fun tx => isApproveCall tx.data) = [true, true, false]
  ∧ (fundFaucet 1 1 "0xF" 100 false "0xT" 200 (fun _ => none) (fun _ => "0xh")
        (fun _ => .ok ())).1.map (fun tx => isApproveCall tx.data) = [false] :=
  ⟨((fundFaucet_allowance_dance 1 "0xF" "0xT" 100 50 (fun _ => none) (fun _ => "0xh")
      (fun _ => .ok ()) rfl (fun _ => rfl)).1 (by decide) (by decide)).1,
   ((fundFaucet_allowance_dance 1 "0xF" "0xT" 100 200 (fun _ => none) (fun _ => "0xh")
      (fun _ => .ok ()) rfl (fun _ => rfl)).2 (by decide)).1⟩

/-- C10: funding with isEther true on Celo (chain id 42220) never submits
a plain native value transfer: every submitted transaction carries call
data, every approve transaction targets the fixed wrapped-CELO token
contract, the approve count follows the allowance rules, and the
operation resolves; on any other chain id, isEther true submits exactly
one plain value transfer to the faucet address. -/
theorem fundFaucet_celo_wrapped
    (faucetAddress tokenOf : Address) (amount allowance : Nat)
    (est : CallData → Option Nat) (hashes : Nat → Hash) (waits : Nat → Except String Unit)
    (hw : ∀ k, waits k = .ok ()) :
    (∀ tx ∈ (fundFaucet 42220 42220 faucetAddress amount true tokenOf allowance est hashes
        waits).1, tx.data ≠ CallData.empty)
  ∧ (∀ tx ∈ (fundFaucet 42220 42220 faucetAddress amount true tokenOf allowance est hashes
        waits).1, isApproveCall tx.data = true → tx.toAddr = wrappedCeloAddress)
  ∧ (fundFaucet 42220 42220 faucetAddress amount true tokenOf allowance est hashes
        waits).1.countP (fun tx => isApproveCall tx.data)
      = (if allowance < amount then (if 0 < allowance then 2 else 1) else 0)
  ∧ (∃ hh, (fundFaucet 42220 42220 faucetAddress amount true tokenOf allowance est hashes
        waits).2 = .ok hh)
  ∧ (∀ chainId, chainId ≠ 42220 →
      fundFaucet chainId chainId faucetAddress amount true tokenOf allowance est hashes waits
        = ([⟨faucetAddress, amount, CallData.empty,
             estimateGasWithFallback (est CallData.empty) 100000⟩], .ok (hashes 0))) := by
  have hz : (wrappedCeloAddress == ZeroAddress) = false := rfl
  refine ⟨?_, ?_, ?_, ?_, ?_⟩
  · by_cases h1 : allowance < amount
    · by_cases h2 : 0 < allowance
      · simp [fundFaucet, checkNetwork, isCeloNetwork, hz, hw, h1, h2,
          appendDivviReferralData]
      · simp [fundFaucet, checkNetwork, isCeloNetwork, hz, hw, h1, h2,
          appendDivviReferralData]
    · simp [fundFaucet, checkNetwork, isCeloNetwork, hz, hw, h1,
        appendDivviReferralData]
  · by_cases h1 : allowance < amount
    · by_cases h2 : 0 < allowance
      · simp [fundFaucet, checkNetwork, isCeloNetwork, hz, hw, h1, h2,
          appendDivviReferralData, isApproveCall]
      · simp [fundFaucet, checkNetwork, isCeloNetwork, hz, hw, h1, h2,
          appendDivviReferralData, isApproveCall]
    · simp [fundFaucet, checkNetwork, isCeloNetwork, hz, hw, h1,
        appendDivviReferralData, isApproveCall]
  · by_cases h1 : allowance < amount
    · by_cases h2 : 0 < allowance
      · simp [fundFaucet, checkNetwork, isCeloNetwork, hz, hw, h1, h2,
          appendDivviReferralData, isApproveCall, List.countP_cons, List.countP_nil]
      · simp [fundFaucet, checkNetwork, isCeloNetwork, hz, hw, h1, h2,
          appendDivviReferralData, isApproveCall, List.countP_cons, List.countP_nil]
    · simp [fundFaucet, checkNetwork, isCeloNetwork, hz, hw, h1,
        appendDivviReferralData, isApproveCall, List.countP_cons, List.countP_nil]
  · by_cases h1 : allowance < amount
    · by_cases h2 : 0 < allowance
      · exact ⟨hashes 2, by simp [fundFaucet, checkNetwork, isCeloNetwork, hz, hw, h1, h2]⟩
      · exact ⟨hashes 1, by simp [fundFaucet, checkNetwork, isCeloNetwork, hz, hw, h1, h2]⟩
    · exact ⟨hashes 0, by simp [fundFaucet, checkNetwork, isCeloNetwork, hz, hw, h1]⟩
  · intro chainId hne
    have hc : (chainId == 42220) = false := by
      cases hcc : chainId == 42220 with
      | false => rfl
      | true => exact absurd (eq_of_beq hcc) hne
    simp [fundFaucet, checkNetwork, isCeloNetwork, hc, hw]

/-- Witness for `fundFaucet_celo_wrapped`: with zero allowance on Celo one
approve precedes the fund call, and on Base (8453) the same request is a
single plain native transfer with the 100000 fallback gas. -/
theorem fundFaucet_celo_wrapped_witness :
    (fundFaucet 42220 42220 "0xF" 100 true "0xT" 0 (fun _ => none) (fun _ => "0xh")
        (fun _ => .ok ())).1.countP (fun tx => isApproveCall tx.data) = 1
  ∧ fundFaucet 8453 8453 "0xF" 100 true "0xT" 0 (fun _ => none) (fun _ => "0xh")
        (fun _ => .ok ())
      = ([⟨"0xF", 100, CallData.empty, 100000⟩], .ok "0xh") := by
  have h := fundFaucet_celo_wrapped "0xF" "0xT" 100 0 (fun _ => none) (fun _ => "0xh")
    (fun _ => .ok ()) (fun _ => rfl)
  constructor
  · have h1 := h.2.2.1
    norm_num at h1
    exact h1
  · have h2 := h.2.2.2.2 8453 (by decide)
    simpa [estimateGasWithFallback] using h2
